import Mathlib

/-!
# GlobiStream: stream-state synchronisation

A shallow embedding of `src/MainUi.cpp` and `src/StreamTable.cpp`:

* the decode loop, the newly-online loop and the table rebuild of
  `MainUi::unPackStream` / `StreamTable::buildTable`;
* the packet dispatch of `MainUi::onPacketReceived`;
* the use that `MainUi::on_ui_poll_clicked` and `MainUi::startStream` make of
  the single `commandProcess` member.

Qt containers are embedded as Lean lists, `QMap<QString, bool>` as a finite
partial function, and `QVariant` as an inductive type carrying the value kinds
that occur in a streams-update payload.
-/

namespace GlobiStream

/-! ## Qt value types -/

/-- The `QVariant` values relevant to a streams-update payload: an invalid
variant, a `bool`, a `QString`, a `QStringList` and a `QVariantList`. -/
inductive QVariant where
  | invalid : QVariant
  | bool : Bool → QVariant
  | string : String → QVariant
  | stringList : List String → QVariant
  | list : List QVariant → QVariant

/-- Conversion `QVariant::toString()`: the string itself, `"true"`/`"false"` for a
bool, the single element of a one-element string list, and the empty string for
everything else. -/
def QVariant.toString : QVariant → String
  | .string s => s
  | .bool b => if b then "true" else "false"
  | .stringList [s] => s
  | _ => ""

/-- Conversion `QVariant::toBool()`: the bool itself; for a string, `true` unless
its lower-case content is empty, `"0"` or `"false"`; `false` for everything
else. (Lower-casing is needed on ASCII letters only: no other character
lower-cases to a character of `"false"`.) -/
def QVariant.toBool : QVariant → Bool
  | .bool b => b
  | .string s =>
    let l := s.toList.map Char.toLower
    !(l == "0".toList || l == "false".toList || l.isEmpty)
  | _ => false

/-- Conversion `QVariant::toStringList()`: the string list itself, the singleton
list of a string, the element-wise `toString` of a variant list, and the empty
list for everything else. -/
def QVariant.toStringList : QVariant → List String
  | .stringList l => l
  | .string s => [s]
  | .list l => l.map QVariant.toString
  | _ => []

/-- Conversion `QVariant::toList()`: the variant list itself, a string list as a
list of string variants, and the empty list for everything else. -/
def QVariant.toList : QVariant → List QVariant
  | .list l => l
  | .stringList l => l.map QVariant.string
  | _ => []

/-- A language-level fault of the C++ program. `QList::at(i)` requires
`0 <= i < size()`; outside that range it fails its assertion in a debug build
and reads out of bounds otherwise. -/
inductive Fault where
  | indexOutOfRange : Fault
  deriving DecidableEq, Repr

/-- Element access `QList::at(i)`, with the violated precondition made explicit. -/
def QList.at {α : Type} (l : List α) (i : Nat) : Except Fault α :=
  match l.get? i with
  | some x => .ok x
  | none => .error .indexOutOfRange

/-- A `QMap<QString, bool>`: each key has at most one value. The program uses
only `insert` and `value`, so the iteration order plays no role. -/
abbrev QMap := String → Option Bool

/-- The default-constructed, empty map. -/
def QMap.empty : QMap := fun _ => none

/-- Operation `QMap::insert(key, value)`: adds the item, replacing the value of
an item that already has the key. -/
def QMap.insert (m : QMap) (key : String) (value : Bool) : QMap :=
  fun k => if k = key then some value else m k

/-- Operation `QMap::value(key, defaultValue)`. -/
def QMap.value (m : QMap) (key : String) (defaultValue : Bool) : Bool :=
  (m key).getD defaultValue

/-- Operation `QMap::contains(key)`. -/
def QMap.contains (m : QMap) (key : String) : Bool :=
  (m key).isSome

/-! ## Data model -/

/-- One stream record, built by `Stream(name, url)` and then given its `online`
flag and its `qualities`. -/
structure Stream where
  name : String
  url : String
  online : Bool
  qualities : List String
  deriving DecidableEq, Repr

/-- A `StreamList`: the records in the order they were delivered. -/
abbrev StreamList := List Stream

/-! ## `MainUi::unPackStream`: the decode loop (lines 109-116) -/

/-- Body of the decode loop for one element of the payload. -/
def decodeStream (streamData : QVariant) : Except Fault Stream := do
  let streamAttrs := streamData.toList
  let a0 ← QList.at streamAttrs 0
  let a1 ← QList.at streamAttrs 1
  let a2 ← QList.at streamAttrs 2
  let a3 ← QList.at streamAttrs 3
  pure { name := a0.toString, url := a1.toString,
         online := a2.toBool, qualities := a3.toStringList }

/-- One iteration of the decode loop: decode the element, then `streams << stream`. -/
def decodeStep (streams : StreamList) (streamData : QVariant) : Except Fault StreamList :=
  match decodeStream streamData with
  | .ok stream => .ok (streams ++ [stream])
  | .error e => .error e

/-- The decode loop `foreach(streamData, data.toList()) { ... }`, starting from
the empty `streams`. -/
def decodeStreams (data : QVariant) : Except Fault StreamList :=
  data.toList.foldlM decodeStep []

/-- Modelled from the spec: the encoder runs on the coordination host and is not
among the sources. The wire shape of one record is the 4-element list
`[name, url, online, qualities]` of a string, a string, a bool and a string
list. -/
def encodeStream (s : Stream) : QVariant :=
  .list [.string s.name, .string s.url, .bool s.online, .stringList s.qualities]

/-- Modelled from the spec: the payload of a streams update is the sequence of
its encoded records, in order. -/
def encodeStreams (streams : StreamList) : QVariant :=
  .list (streams.map encodeStream)

/-! ## `StreamTable` (StreamTable.h, StreamTable.cpp) -/

/-- The members of `StreamTable` together with the rows it displays (one row per
shown record: name, url label, status and action widget are all derived from the
record). -/
structure StreamTable where
  showOfflinePages : Bool
  streamsCache : StreamList
  _lastStates : QMap
  rows : StreamList

/-- Constructor `StreamTable::StreamTable`: `showOfflinePages(false)`, empty cache,
empty map, no rows. -/
def StreamTable.new : StreamTable :=
  { showOfflinePages := false, streamsCache := [], _lastStates := QMap.empty, rows := [] }

/-- Accessor `StreamTable::lastStates()`. -/
def StreamTable.lastStates (t : StreamTable) : QMap := t._lastStates

/-- One iteration of the first loop of `buildTable`, on the pair `(shown, _lastStates)`:
`if(stream.online || showOfflinePages) shown << stream;` then
`_lastStates.insert(stream.url, stream.online);`. -/
def buildStep (showOfflinePages : Bool) (acc : StreamList × QMap) (stream : Stream) :
    StreamList × QMap :=
  (if stream.online || showOfflinePages then acc.1 ++ [stream] else acc.1,
   acc.2.insert stream.url stream.online)

/-- Method `StreamTable::buildTable(streams)`: stores the cache, runs the first loop,
then sets the row count to `shown.size()` and fills one row per shown record. -/
def StreamTable.buildTable (t : StreamTable) (streams : StreamList) : StreamTable :=
  let r := streams.foldl (buildStep t.showOfflinePages) ([], t._lastStates)
  { showOfflinePages := t.showOfflinePages
    streamsCache := streams
    _lastStates := r.2
    rows := r.1 }

/-- Method `StreamTable::rebuildTable()`: `buildTable(streamsCache)`. -/
def StreamTable.rebuildTable (t : StreamTable) : StreamTable :=
  t.buildTable t.streamsCache

/-- Method `StreamTable::setShowOfflinePages(show)`. -/
def StreamTable.setShowOfflinePages (t : StreamTable) (showOffline : Bool) : StreamTable :=
  { t with showOfflinePages := showOffline }

/-- The table states that calls of `buildTable`, `setShowOfflinePages` and
`rebuildTable` can produce from a freshly constructed table. -/
inductive StreamTable.Reachable : StreamTable → Prop where
  | new : StreamTable.Reachable StreamTable.new
  | buildTable {t : StreamTable} (streams : StreamList) :
      StreamTable.Reachable t → StreamTable.Reachable (t.buildTable streams)
  | setShowOfflinePages {t : StreamTable} (showOffline : Bool) :
      StreamTable.Reachable t → StreamTable.Reachable (t.setShowOfflinePages showOffline)
  | rebuildTable {t : StreamTable} :
      StreamTable.Reachable t → StreamTable.Reachable t.rebuildTable

/-! ## `MainUi::unPackStream`: the newly-online loop (lines 118-120) -/

/-- One iteration of the newly-online loop. The first component is the text
`newOnlineStreams`, to which `QString(" - %1\n").arg(stream.name)` is appended;
the second component records which records were appended, in order. -/
def newOnlineStep (lastStates : QMap) (acc : String × StreamList) (stream : Stream) :
    String × StreamList :=
  if stream.online && !(lastStates.value stream.url false) then
    (acc.1 ++ (" - " ++ stream.name ++ "\n"), acc.2 ++ [stream])
  else acc

/-- The newly-online loop over the decoded `streams`, against the table's
`lastStates()`. -/
def newOnlineLoop (lastStates : QMap) (streams : StreamList) : String × StreamList :=
  streams.foldl (newOnlineStep lastStates) ("", [])

/-- The text `newOnlineStreams` after the loop. -/
def newOnlineStreams (lastStates : QMap) (streams : StreamList) : String :=
  (newOnlineLoop lastStates streams).1

/-- The records the loop reported as newly online, in the order it met them. -/
def newlyOnline (lastStates : QMap) (streams : StreamList) : StreamList :=
  (newOnlineLoop lastStates streams).2

/-! ## Constants and collaborators declared outside the given sources -/

/-- Constants and helpers that `MainUi.cpp` uses but that are declared elsewhere:
the packet-type tag `StreamsUpdate`, the tray texts, the two command templates
(each applied to its `arg`s), the output parser (returning the qualities and the
`streamOnline` out-parameter) and the default player path. Every theorem that
mentions them holds for all their values. -/
structure Constants where
  StreamsUpdate : Nat
  NEW_ONLINE_STREAMS_TITLE : String
  NEW_ONLINE_STREAMS_NOTIFICATION : String → String
  POLLING_COMMAND : String → String
  START_LIVESTREAMER_COMMAND : String → String → String → String
  parseQualitiesFromOutput : String → List String × Bool
  DEFAULT_PLAYER_PATH : String

/-- Modelled from the spec: class `CommandProcess` is not among the sources; only its
calls `restart()`, `write(command)`, `waitForComputingFinished()` and
`readAllStandardOutput()` are. The model keeps the one child process the object
owns: `live` is the serial number of the child that is running, `written` the
commands written to it, `terminated` the serial numbers of the children that
`restart()` ended. -/
structure CommandProcess where
  live : Nat
  written : List String
  terminated : List Nat
  deriving DecidableEq, Repr

/-- A freshly constructed `CommandProcess`: its first child, nothing written. -/
def CommandProcess.new : CommandProcess :=
  { live := 0, written := [], terminated := [] }

/-- Modelled from the spec: `CommandProcess::restart()` is not among the sources.
Following the restart policy of the spec (a running process of the same
instance is terminated, not queued, before the new one starts; exactly one
process is live per instance), the live child is terminated and a fresh child
becomes the live one. -/
def CommandProcess.restart (p : CommandProcess) : CommandProcess :=
  { live := p.live + 1, written := [], terminated := p.terminated ++ [p.live] }

/-- Call `commandProcess->write(command)`: the command goes to the live child. -/
def CommandProcess.write (p : CommandProcess) (command : String) : CommandProcess :=
  { p with written := p.written ++ [command] }

/-- How the probe command ended, as the environment knows it. -/
inductive ProbeStatus where
  | exited (code : Nat) : ProbeStatus
  | timedOut : ProbeStatus
  | spawnFailed : ProbeStatus
  deriving DecidableEq, Repr

/-- What the environment hands back when `waitForComputingFinished()` returns: how
the probe ended and the bytes `readAllStandardOutput()` then yields. -/
structure ProbeOutcome where
  status : ProbeStatus
  stdout : String
  deriving DecidableEq, Repr

/-- A probe failed when it timed out, could not be spawned or exited non-zero. -/
def ProbeStatus.failed : ProbeStatus → Bool
  | .exited code => code != 0
  | .timedOut => true
  | .spawnFailed => true

/-! ## `MainUi` -/

/-- The members of `MainUi` that the embedded methods read or write. `tray` lists
the `(title, message)` pairs passed to `tray->showMessage`;
`clientSideStreamAction` is `none` for `NULL` and otherwise holds the qualities
and url its widget was built from; the two counters count the `connect` calls
made on the output signals of `commandProcess`. -/
structure MainUi where
  streamTable : StreamTable
  tray : List (String × String)
  commandProcess : CommandProcess
  clientSideStreamAction : Option (List String × String)
  ui_urlEdit : String
  mediaPlayerPath : String
  stdoutConnections : Nat
  stderrConnections : Nat

/-- The state after `MainUi::init()`: a new table, a new command process, no
client-side action widget, the default player path. -/
def MainUi.new (c : Constants) : MainUi :=
  { streamTable := StreamTable.new
    tray := []
    commandProcess := CommandProcess.new
    clientSideStreamAction := none
    ui_urlEdit := ""
    mediaPlayerPath := c.DEFAULT_PLAYER_PATH
    stdoutConnections := 0
    stderrConnections := 0 }

/-- Lines 118-125 of `unPackStream`, on the decoded `streams`: the newly-online
loop, the tray message when the text is not empty, then `buildTable`. -/
def MainUi.showStreams (c : Constants) (ui : MainUi) (streams : StreamList) : MainUi :=
  let text := newOnlineStreams ui.streamTable.lastStates streams
  { ui with
    tray :=
      if !text.isEmpty then
        ui.tray ++ [(c.NEW_ONLINE_STREAMS_TITLE, c.NEW_ONLINE_STREAMS_NOTIFICATION text)]
      else ui.tray
    streamTable := ui.streamTable.buildTable streams }

/-- Method `MainUi::unPackStream(data)`: the decode loop followed by lines 118-125. -/
def MainUi.unPackStream (c : Constants) (ui : MainUi) (data : QVariant) :
    Except Fault MainUi :=
  match decodeStreams data with
  | .ok streams => .ok (ui.showStreams c streams)
  | .error e => .error e

/-- Slot `MainUi::onPacketReceived(packetType, content)`: the `switch` with its one
case `StreamsUpdate` and its empty `default`. -/
def MainUi.onPacketReceived (c : Constants) (ui : MainUi) (packetType : Nat)
    (content : QVariant) : Except Fault MainUi :=
  if packetType = c.StreamsUpdate then ui.unPackStream c content else .ok ui

/-- A run of `unPackStream` over successive payloads, stopping at the first fault. -/
def MainUi.unPackAll (c : Constants) (ui : MainUi) (payloads : List QVariant) :
    Except Fault MainUi :=
  payloads.foldlM (fun u data => u.unPackStream c data) ui

/-- The same run on already decoded updates. -/
def MainUi.showAll (c : Constants) (ui : MainUi) (updates : List StreamList) : MainUi :=
  updates.foldl (fun u streams => u.showStreams c streams) ui

/-- Method `MainUi::buildClientActionWidget(qualities)`. -/
def MainUi.buildClientActionWidget (ui : MainUi) (qualities : List String) : MainUi :=
  { ui with clientSideStreamAction := some (qualities, ui.ui_urlEdit) }

/-- Lines 150-165 of `on_ui_poll_clicked`: the client action widget is reset, the
command process restarted and the polling command written to it. (The disabler
and the progress bar are local objects, gone when the slot returns.) -/
def MainUi.pollStart (c : Constants) (ui : MainUi) : MainUi :=
  { ui with
    clientSideStreamAction := none
    commandProcess := ui.commandProcess.restart.write (c.POLLING_COMMAND ui.ui_urlEdit) }

/-- Lines 168-173 of `on_ui_poll_clicked`, once `waitForComputingFinished()` has
returned: the standard output is parsed and the widget built when the parser
set `streamOnline`. -/
def MainUi.pollFinish (c : Constants) (ui : MainUi) (standardOutput : String) : MainUi :=
  let r := c.parseQualitiesFromOutput standardOutput
  if r.2 then ui.buildClientActionWidget r.1 else ui

/-- Slot `MainUi::on_ui_poll_clicked()`, given what the probe did. -/
def MainUi.on_ui_poll_clicked (c : Constants) (ui : MainUi) (outcome : ProbeOutcome) :
    MainUi :=
  (ui.pollStart c).pollFinish c outcome.stdout

/-- Slot `MainUi::startStream(url, quality)`. -/
def MainUi.startStream (c : Constants) (ui : MainUi) (url quality : String) : MainUi :=
  { ui with
    commandProcess :=
      ui.commandProcess.restart.write
        (c.START_LIVESTREAMER_COMMAND url quality ui.mediaPlayerPath)
    stdoutConnections := ui.stdoutConnections + 1
    stderrConnections := ui.stderrConnections + 1 }

/-- Slot `MainUi::on_ui_a_showOfflineStreams_triggered(enabled)`. -/
def MainUi.on_ui_a_showOfflineStreams_triggered (ui : MainUi) (enabled : Bool) : MainUi :=
  { ui with streamTable := (ui.streamTable.setShowOfflinePages enabled).rebuildTable }

/-! ## Reference notions used to state the properties -/

/-- The `online` flag of the last record of `streams` that carries `url`, if any. -/
def lastOnline (streams : StreamList) (url : String) : Option Bool :=
  (streams.reverse.find? (fun s => decide (s.url = url))).map (fun s => s.online)

/-- The condition under which a record counts as newly online: it is online and
`previous.value(url, false)` is `false`. -/
def isNewlyOnline (previous : QMap) (s : Stream) : Bool :=
  s.online && !(previous.value s.url false)

/-- The record the decode loop builds from an element that has at least four
entries: its first four entries under the four conversions. -/
def recordOfFirstFour (streamData : QVariant) : Stream :=
  { name := (streamData.toList.getD 0 .invalid).toString
    url := (streamData.toList.getD 1 .invalid).toString
    online := (streamData.toList.getD 2 .invalid).toBool
    qualities := (streamData.toList.getD 3 .invalid).toStringList }

/-- Sample values of the constants, for evaluating the program on concrete inputs. -/
def sampleConstants : Constants :=
  { StreamsUpdate := 1
    NEW_ONLINE_STREAMS_TITLE := "New streams online"
    NEW_ONLINE_STREAMS_NOTIFICATION := fun text => "Now online:\n" ++ text
    POLLING_COMMAND := fun url => "livestreamer " ++ url
    START_LIVESTREAMER_COMMAND := fun url quality player =>
      "livestreamer " ++ url ++ " " ++ quality ++ " -p " ++ player
    parseQualitiesFromOutput := fun out =>
      if "Found streams: ".toList.isPrefixOf out.toList then
        ([String.mk (out.toList.drop 15)], true)
      else ([], false)
    DEFAULT_PLAYER_PATH := "vlc" }

end GlobiStream

namespace GlobiStream

theorem decodeStream_encodeStream (s : Stream) : decodeStream (encodeStream s) = .ok s := by
  cases s
  rfl

theorem decode_loop_encoded (l acc : StreamList) :
    (l.map encodeStream).foldlM decodeStep acc
      = (Except.ok (acc ++ l) : Except Fault StreamList) := by
  induction l generalizing acc with
  | nil => simp [pure, Except.pure]
  | cons s l ih =>
    simp only [List.map_cons, List.foldlM_cons, decodeStep, decodeStream_encodeStream]
    simp only [bind, Except.bind]
    rw [ih]
    simp

theorem decodeStreams_encodeStreams (streams : StreamList) :
    decodeStreams (encodeStreams streams) = .ok streams := by
  unfold decodeStreams encodeStreams
  simp only [QVariant.toList]
  rw [decode_loop_encoded]
  simp

/-- C3: decoding the wire encoding of any stream list with the decode loop of
`MainUi::unPackStream` succeeds and returns the same list: same length, same
records with the same four fields, same order. -/
theorem C3_decode_roundtrip (streams : StreamList) :
    decodeStreams (encodeStreams streams) = .ok streams
    ∧ (decodeStreams (encodeStreams streams)).toOption.map List.length
        = some streams.length :=
  ⟨decodeStreams_encodeStreams streams, by rw [decodeStreams_encodeStreams]; rfl⟩

/-! ## The newly-online loop -/

theorem newOnlineLoop_acc (ls : QMap) (l : StreamList) (acc : String × StreamList) :
    l.foldl (newOnlineStep ls) acc
      = (((l.filter (isNewlyOnline ls)).map (fun s => " - " ++ s.name ++ "\n")).foldl
            (fun r t => r ++ t) acc.1,
          acc.2 ++ l.filter (isNewlyOnline ls)) := by
  induction l generalizing acc with
  | nil => simp
  | cons s l ih =>
    rw [List.foldl_cons, ih]
    by_cases h : isNewlyOnline ls s = true
    · have h2 : (s.online && !(ls.value s.url false)) = true := h
      simp [newOnlineStep, h, h2]
    · have h2 : ¬ (s.online && !(ls.value s.url false)) = true := h
      simp only [newOnlineStep, h2, if_false]
      simp [h]

theorem newlyOnline_eq_filter (ls : QMap) (l : StreamList) :
    newlyOnline ls l = l.filter (isNewlyOnline ls) := by
  simp [newlyOnline, newOnlineLoop, newOnlineLoop_acc]

/-- C1: the records that the newly-online loop of `MainUi::unPackStream` reports are
exactly the records of `current` with `online` set and
`previous.value(url, false)` false, in the order of `current`; the text shown is
made of their lines; no offline record is reported; and with an empty
`previous` and `current = [a online, b offline]` exactly `[a]` is reported. -/
theorem C1_newly_online_selection (previous : QMap) (current : StreamList) :
    newlyOnline previous current
        = current.filter (fun s => s.online && !(previous.value s.url false))
    ∧ newOnlineStreams previous current
        = String.join ((newlyOnline previous current).map (fun s => " - " ++ s.name ++ "\n"))
    ∧ (∀ s ∈ newlyOnline previous current, s.online = true)
    ∧ (newlyOnline previous current).Sublist current
    ∧ (∀ (nameA nameB : String) (qa qb : List String),
        newlyOnline QMap.empty
            [{ name := nameA, url := "a", online := true, qualities := qa },
             { name := nameB, url := "b", online := false, qualities := qb }]
          = [{ name := nameA, url := "a", online := true, qualities := qa }]) := by
  have hf : newlyOnline previous current
      = current.filter (fun s => s.online && !(previous.value s.url false)) :=
    newlyOnline_eq_filter previous current
  refine ⟨hf, ?_, ?_, ?_, ?_⟩
  · rw [newlyOnline_eq_filter]
    simp [newOnlineStreams, newOnlineLoop, newOnlineLoop_acc, String.join]
  · intro s hs
    rw [hf] at hs
    have := (List.mem_filter.mp hs).2
    simp at this
    exact this.1
  · rw [hf]
    exact List.filter_sublist _
  · intro nameA nameB qa qb
    rw [newlyOnline_eq_filter]
    simp [isNewlyOnline, QMap.value, QMap.empty]

/-! ## `buildTable` and the last-known states -/

theorem lastOnline_nil (url : String) : lastOnline [] url = none := rfl

theorem lastOnline_append (a b : StreamList) (url : String) :
    lastOnline (a ++ b) url = (lastOnline b url).or (lastOnline a url) := by
  unfold lastOnline
  rw [List.reverse_append, List.find?_append]
  cases List.find? (fun s => decide (s.url = url)) b.reverse <;> simp

theorem lastOnline_singleton (s : Stream) (url : String) :
    lastOnline [s] url = if s.url = url then some s.online else none := by
  unfold lastOnline
  by_cases h : s.url = url <;> simp [h]

theorem lastOnline_cons (s : Stream) (l : StreamList) (url : String) :
    lastOnline (s :: l) url
      = (lastOnline l url).or (if s.url = url then some s.online else none) := by
  have h := lastOnline_append [s] l url
  rw [lastOnline_singleton] at h
  simpa using h

theorem lastOnline_eq_none_iff (l : StreamList) (url : String) :
    lastOnline l url = none ↔ ∀ s ∈ l, s.url ≠ url := by
  unfold lastOnline
  simp [List.find?_eq_none]

theorem lastOnline_of_nodup (l : StreamList) (h : (l.map Stream.url).Nodup)
    (s : Stream) (hs : s ∈ l) : lastOnline l s.url = some s.online := by
  induction l with
  | nil => simp at hs
  | cons x xs ih =>
    rw [List.map_cons, List.nodup_cons] at h
    rw [lastOnline_cons]
    rcases List.mem_cons.mp hs with rfl | hmem
    · have hnone : lastOnline xs s.url = none := by
        rw [lastOnline_eq_none_iff]
        intro y hy hyu
        exact h.1 (List.mem_map.mpr ⟨y, hy, hyu⟩)
      simp [hnone]
    · rw [ih h.2 hmem]
      simp

theorem buildLoop_closed (showOffline : Bool) (l : StreamList) (acc : StreamList × QMap) :
    l.foldl (buildStep showOffline) acc
      = (acc.1 ++ l.filter (fun s => s.online || showOffline),
          fun url => (lastOnline l url).or (acc.2 url)) := by
  induction l generalizing acc with
  | nil => simp [lastOnline_nil]
  | cons s l ih =>
    rw [List.foldl_cons, ih]
    refine Prod.ext ?_ ?_
    · by_cases h : (s.online || showOffline) = true
      · simp [buildStep, h, List.filter_cons]
      · simp [buildStep, h, List.filter_cons]
    · funext url
      simp only [buildStep, QMap.insert, lastOnline_cons]
      cases lastOnline l url <;> by_cases hu : url = s.url <;> simp [hu, eq_comm]

theorem buildTable_lastStates (t : StreamTable) (streams : StreamList) (url : String) :
    (t.buildTable streams).lastStates url = (lastOnline streams url).or (t.lastStates url) := by
  simp [StreamTable.buildTable, StreamTable.lastStates, buildLoop_closed]

theorem buildTable_rows (t : StreamTable) (streams : StreamList) :
    (t.buildTable streams).rows = streams.filter (fun s => s.online || t.showOfflinePages) := by
  simp [StreamTable.buildTable, buildLoop_closed]

/-- C9: after `StreamTable::buildTable(streams)` the last-known-state map sends each
url occurring in `streams` to the `online` flag of its last occurrence there and
keeps the entry of every other url as it was, no entry is removed, and the
cache equals `streams`. -/
theorem C9_buildTable_state (t : StreamTable) (streams : StreamList) :
    (t.buildTable streams).streamsCache = streams
    ∧ (∀ url, (t.buildTable streams).lastStates url
          = (lastOnline streams url).or (t.lastStates url))
    ∧ (∀ (before after : StreamList) (s : Stream),
          streams = before ++ s :: after → (∀ x ∈ after, x.url ≠ s.url) →
          (t.buildTable streams).lastStates s.url = some s.online)
    ∧ (∀ url, (∀ x ∈ streams, x.url ≠ url) →
          (t.buildTable streams).lastStates url = t.lastStates url)
    ∧ (∀ url, t.lastStates.contains url = true →
          (t.buildTable streams).lastStates.contains url = true) := by
  refine ⟨rfl, buildTable_lastStates t streams, ?_, ?_, ?_⟩
  · intro before after s hsplit hlast
    rw [buildTable_lastStates, hsplit, lastOnline_append, lastOnline_cons,
      (lastOnline_eq_none_iff after s.url).mpr hlast]
    simp
  · intro url hno
    rw [buildTable_lastStates, (lastOnline_eq_none_iff streams url).mpr hno]
    simp
  · intro url hc
    rw [QMap.contains, buildTable_lastStates]
    rw [QMap.contains] at hc
    cases h : lastOnline streams url <;> simp [hc]

/-- A concrete instance of C9: after building from `[a online, a offline, b online]`
the url `a` is stored as offline (its last occurrence), and the url `c`, absent
from the list, keeps its entry. -/
theorem C9_buildTable_state_witness :
    (StreamTable.new.buildTable
        [{ name := "A", url := "a", online := true, qualities := [] },
         { name := "A", url := "a", online := false, qualities := [] },
         { name := "B", url := "b", online := true, qualities := ["best"] }]).lastStates "a"
      = some false
    ∧ (StreamTable.new.buildTable
        [{ name := "A", url := "a", online := true, qualities := [] },
         { name := "A", url := "a", online := false, qualities := [] },
         { name := "B", url := "b", online := true, qualities := ["best"] }]).lastStates "c"
      = StreamTable.new.lastStates "c" :=
  ⟨(C9_buildTable_state StreamTable.new _).2.2.1
      [{ name := "A", url := "a", online := true, qualities := [] }]
      [{ name := "B", url := "b", online := true, qualities := ["best"] }]
      { name := "A", url := "a", online := false, qualities := [] } rfl (by decide),
   (C9_buildTable_state StreamTable.new _).2.2.2.1 "c" (by decide)⟩

/-! ## Recomputing the diff after the state was committed -/

theorem isNewlyOnline_after_build (t : StreamTable) (current : StreamList) (s : Stream)
    (hs : s ∈ current) :
    isNewlyOnline (t.buildTable current).lastStates s
      = (s.online && (lastOnline current s.url == some false)) := by
  have hne : lastOnline current s.url ≠ none := by
    rw [Ne, lastOnline_eq_none_iff]
    intro h
    exact h s hs rfl
  unfold isNewlyOnline QMap.value
  rw [buildTable_lastStates]
  cases h : lastOnline current s.url with
  | none => exact absurd h hne
  | some b => cases b <;> simp

theorem recompute_eq_nil_iff (t : StreamTable) (current : StreamList) :
    newlyOnline (t.buildTable current).lastStates current = []
      ↔ ∀ s ∈ current, s.online = true → lastOnline current s.url = some true := by
  rw [newlyOnline_eq_filter, List.filter_eq_nil_iff]
  constructor
  · intro h s hs hon
    have h1 := h s hs
    rw [isNewlyOnline_after_build t current s hs, hon] at h1
    have hne : lastOnline current s.url ≠ none := by
      rw [Ne, lastOnline_eq_none_iff]
      intro h
      exact h s hs rfl
    cases hl : lastOnline current s.url with
    | none => exact absurd hl hne
    | some b =>
      cases b
      · rw [hl] at h1
        simp at h1
      · rfl
  · intro h s hs
    rw [isNewlyOnline_after_build t current s hs]
    cases hon : s.online
    · simp
    · rw [h s hs hon]
      simp

/-- C2 as stated fails: with the two records `[a online, a offline]` carrying the
same url, `buildTable` commits `a` as offline, and recomputing the diff against
the same list reports the first record again. -/
theorem C2_recompute_counterexample :
    newlyOnline
        ((MainUi.new sampleConstants).showStreams sampleConstants
          [{ name := "A", url := "a", online := true, qualities := [] },
           { name := "A", url := "a", online := false, qualities := [] }]).streamTable.lastStates
        [{ name := "A", url := "a", online := true, qualities := [] },
         { name := "A", url := "a", online := false, qualities := [] }]
      = [{ name := "A", url := "a", online := true, qualities := [] }] := by
  decide

/-- C2, amended: after `unPackStream` has computed the diff for `current` and
`buildTable` has committed it, recomputing the diff against the same `current`
is empty exactly when every url carried by an online record of `current` has an
online last occurrence in `current`; in particular it is empty whenever the
urls of `current` are pairwise distinct. -/
theorem C2_recompute_after_commit (c : Constants) (ui : MainUi) (current : StreamList) :
    (newlyOnline (ui.showStreams c current).streamTable.lastStates current = []
      ↔ ∀ s ∈ current, s.online = true → lastOnline current s.url = some true)
    ∧ ((current.map Stream.url).Nodup →
        newlyOnline (ui.showStreams c current).streamTable.lastStates current = []) := by
  have hiff := recompute_eq_nil_iff ui.streamTable current
  refine ⟨hiff, ?_⟩
  intro hnd
  refine hiff.mpr ?_
  intro s hs hon
  rw [lastOnline_of_nodup current hnd s hs, hon]

/-- A concrete instance of amended C2: for `[a online, b offline]` the recomputed
diff is empty. -/
theorem C2_recompute_after_commit_witness :
    ([{ name := "A", url := "a", online := true, qualities := ["best"] },
      { name := "B", url := "b", online := false, qualities := [] }].map Stream.url).Nodup
    ∧ newlyOnline
        ((MainUi.new sampleConstants).showStreams sampleConstants
          [{ name := "A", url := "a", online := true, qualities := ["best"] },
           { name := "B", url := "b", online := false, qualities := [] }]).streamTable.lastStates
        [{ name := "A", url := "a", online := true, qualities := ["best"] },
         { name := "B", url := "b", online := false, qualities := [] }]
      = [] :=
  ⟨by decide,
   (C2_recompute_after_commit sampleConstants (MainUi.new sampleConstants) _).2 (by decide)⟩

/-! ## `rebuildTable` in reachable states -/

theorem reachable_lastStates (t : StreamTable) (h : t.Reachable) :
    ∀ (url : String) (b : Bool),
      lastOnline t.streamsCache url = some b → t._lastStates url = some b := by
  have key : ∀ (t0 : StreamTable) (streams : StreamList) (url : String) (b : Bool),
      lastOnline streams url = some b → (t0.buildTable streams)._lastStates url = some b := by
    intro t0 streams url b hl
    have := buildTable_lastStates t0 streams url
    rw [hl] at this
    simpa [StreamTable.lastStates] using this
  induction h with
  | new =>
    intro url b hb
    simp [StreamTable.new, lastOnline_nil] at hb
  | buildTable streams _ _ => exact key _ streams
  | setShowOfflinePages showOffline _ ih => exact ih
  | rebuildTable _ _ => exact key _ _

theorem rebuild_lastStates (t : StreamTable) (h : t.Reachable) (showOffline : Bool) :
    ((t.setShowOfflinePages showOffline).rebuildTable)._lastStates = t._lastStates := by
  funext url
  have hb := buildTable_lastStates (t.setShowOfflinePages showOffline) t.streamsCache url
  have hr : ((t.setShowOfflinePages showOffline).rebuildTable)._lastStates url
      = (lastOnline t.streamsCache url).or (t._lastStates url) := hb
  rw [hr]
  cases hl : lastOnline t.streamsCache url with
  | none => simp
  | some b => simp [reachable_lastStates t h url b hl]

theorem setShow_same (t : StreamTable) : t.setShowOfflinePages t.showOfflinePages = t := rfl

/-- C10: in every table state reachable by `buildTable`, `setShowOfflinePages` and
`rebuildTable`, a `rebuildTable` -- alone, or after the show-offline flag was
set as `on_ui_a_showOfflineStreams_triggered` does -- leaves the
last-known-state map and the cache unchanged, so the records a later update
reports as newly online are the same; the rows become the cached records with
`online || showOfflinePages`, in delivered order, and no notification is shown. -/
theorem C10_rebuild_preserves_state (ui : MainUi) (h : ui.streamTable.Reachable)
    (enabled : Bool) :
    (ui.streamTable.rebuildTable._lastStates = ui.streamTable._lastStates
      ∧ ui.streamTable.rebuildTable.streamsCache = ui.streamTable.streamsCache
      ∧ ui.streamTable.rebuildTable.showOfflinePages = ui.streamTable.showOfflinePages
      ∧ ui.streamTable.rebuildTable.rows
          = ui.streamTable.streamsCache.filter
              (fun s => s.online || ui.streamTable.showOfflinePages))
    ∧ ((ui.on_ui_a_showOfflineStreams_triggered enabled).streamTable._lastStates
          = ui.streamTable._lastStates
      ∧ (ui.on_ui_a_showOfflineStreams_triggered enabled).streamTable.streamsCache
          = ui.streamTable.streamsCache
      ∧ (ui.on_ui_a_showOfflineStreams_triggered enabled).streamTable.showOfflinePages
          = enabled
      ∧ (ui.on_ui_a_showOfflineStreams_triggered enabled).streamTable.rows
          = ui.streamTable.streamsCache.filter (fun s => s.online || enabled)
      ∧ (ui.on_ui_a_showOfflineStreams_triggered enabled).tray = ui.tray)
    ∧ (∀ streams : StreamList,
        newlyOnline (ui.on_ui_a_showOfflineStreams_triggered enabled).streamTable.lastStates
            streams
          = newlyOnline ui.streamTable.lastStates streams
        ∧ newlyOnline ui.streamTable.rebuildTable.lastStates streams
          = newlyOnline ui.streamTable.lastStates streams) := by
  have h1 : ui.streamTable.rebuildTable._lastStates = ui.streamTable._lastStates := by
    have := rebuild_lastStates ui.streamTable h ui.streamTable.showOfflinePages
    rwa [setShow_same] at this
  have h2 : (ui.on_ui_a_showOfflineStreams_triggered enabled).streamTable._lastStates
      = ui.streamTable._lastStates := rebuild_lastStates ui.streamTable h enabled
  refine ⟨⟨h1, rfl, rfl, ?_⟩, ⟨h2, rfl, rfl, ?_, rfl⟩, ?_⟩
  · exact buildTable_rows ui.streamTable ui.streamTable.streamsCache
  · exact buildTable_rows (ui.streamTable.setShowOfflinePages enabled) ui.streamTable.streamsCache
  · intro streams
    simp only [StreamTable.lastStates, h1, h2, and_self]

/-- A concrete instance of C10: after one update `[a online, a offline, b offline]`,
showing the offline streams leaves `a` stored as offline (it is not reset by the
pass over the first record) and shows all three rows. -/
theorem C10_rebuild_preserves_state_witness :
    (((MainUi.new sampleConstants).showStreams sampleConstants
        [{ name := "A", url := "a", online := true, qualities := [] },
         { name := "A", url := "a", online := false, qualities := [] },
         { name := "B", url := "b", online := false, qualities := [] }]
      ).on_ui_a_showOfflineStreams_triggered true).streamTable._lastStates
      = ((MainUi.new sampleConstants).showStreams sampleConstants
        [{ name := "A", url := "a", online := true, qualities := [] },
         { name := "A", url := "a", online := false, qualities := [] },
         { name := "B", url := "b", online := false, qualities := [] }]).streamTable._lastStates
    ∧ (((MainUi.new sampleConstants).showStreams sampleConstants
        [{ name := "A", url := "a", online := true, qualities := [] },
         { name := "A", url := "a", online := false, qualities := [] },
         { name := "B", url := "b", online := false, qualities := [] }]
      ).on_ui_a_showOfflineStreams_triggered true).streamTable.rows.length = 3 :=
  have hr : ((MainUi.new sampleConstants).showStreams sampleConstants
        [{ name := "A", url := "a", online := true, qualities := [] },
         { name := "A", url := "a", online := false, qualities := [] },
         { name := "B", url := "b", online := false, qualities := [] }]).streamTable.Reachable :=
    StreamTable.Reachable.buildTable _ StreamTable.Reachable.new
  ⟨(C10_rebuild_preserves_state _ hr true).2.1.1, by decide⟩

/-! ## Successive updates -/

theorem showAll_lastStates (c : Constants) (history : List StreamList) (ui : MainUi)
    (url : String) :
    (ui.showAll c history).streamTable.lastStates url
      = (lastOnline history.flatten url).or (ui.streamTable.lastStates url) := by
  induction history generalizing ui with
  | nil => simp [MainUi.showAll, lastOnline_nil]
  | cons x xs ih =>
    have hstep : (ui.showAll c (x :: xs)) = (ui.showStreams c x).showAll c xs := rfl
    have hx : (ui.showStreams c x).streamTable.lastStates url
        = (lastOnline x url).or (ui.streamTable.lastStates url) :=
      buildTable_lastStates ui.streamTable x url
    rw [hstep, ih, hx, List.flatten_cons, lastOnline_append]
    cases lastOnline xs.flatten url <;> simp

theorem unPackStream_encodeStreams (c : Constants) (ui : MainUi) (streams : StreamList) :
    ui.unPackStream c (encodeStreams streams) = .ok (ui.showStreams c streams) := by
  simp [MainUi.unPackStream, decodeStreams_encodeStreams]

theorem unPackAll_encoded (c : Constants) (history : List StreamList) (ui : MainUi) :
    ui.unPackAll c (history.map encodeStreams) = .ok (ui.showAll c history) := by
  induction history generalizing ui with
  | nil => rfl
  | cons x xs ih =>
    have hstep : (ui.showAll c (x :: xs)) = (ui.showStreams c x).showAll c xs := rfl
    rw [hstep, ← ih]
    simp only [MainUi.unPackAll, List.map_cons, List.foldlM_cons, unPackStream_encodeStreams]
    rfl

/-- C5 as stated fails: `a` is online in the first update, absent from the second
and online in the third; although it is online in the third update and not
present in the one immediately before, the third update reports nothing,
because the map still holds `a` as online. -/
theorem C5_transition_counterexample :
    (∀ s ∈ ([] : StreamList), s.url ≠ "a")
    ∧ newlyOnline
        ((MainUi.new sampleConstants).showAll sampleConstants
          [[{ name := "A", url := "a", online := true, qualities := [] }],
           []]).streamTable.lastStates
        [{ name := "A", url := "a", online := true, qualities := [] }]
      = [] := by
  decide

/-- C5, amended: starting from the empty map, after the updates of `history` were
processed by `unPackStream`, the next update `current` reports a url as newly
online if and only if some record of `current` carrying it is online and the
last record carrying it in all earlier updates -- if there is one -- is not
online. (A url seen online earlier and absent since is not reported again.) -/
theorem C5_reported_iff (c : Constants) (history : List StreamList) (current : StreamList)
    (url : String) :
    ((MainUi.new c).unPackAll c (history.map encodeStreams)
        = .ok ((MainUi.new c).showAll c history))
    ∧ ((∃ s ∈ newlyOnline ((MainUi.new c).showAll c history).streamTable.lastStates current,
          s.url = url)
        ↔ ((∃ s ∈ current, s.url = url ∧ s.online = true)
            ∧ lastOnline history.flatten url ≠ some true)) := by
  refine ⟨unPackAll_encoded c history (MainUi.new c), ?_⟩
  have hls : ∀ u, ((MainUi.new c).showAll c history).streamTable.lastStates u
      = lastOnline history.flatten u := by
    intro u
    rw [showAll_lastStates]
    simp [MainUi.new, StreamTable.new, StreamTable.lastStates, QMap.empty]
  have hnew : ∀ s : Stream,
      isNewlyOnline ((MainUi.new c).showAll c history).streamTable.lastStates s = true
        ↔ (s.online = true ∧ lastOnline history.flatten s.url ≠ some true) := by
    intro s
    unfold isNewlyOnline QMap.value
    rw [hls]
    cases lastOnline history.flatten s.url with
    | none => simp
    | some b => cases b <;> simp
  rw [newlyOnline_eq_filter]
  constructor
  · rintro ⟨s, hs, rfl⟩
    have hm := List.mem_filter.mp hs
    have hn := (hnew s).mp hm.2
    exact ⟨⟨s, hm.1, rfl, hn.1⟩, hn.2⟩
  · rintro ⟨⟨s, hs, rfl, hon⟩, hlast⟩
    exact ⟨s, List.mem_filter.mpr ⟨hs, (hnew s).mpr ⟨hon, hlast⟩⟩, rfl⟩

/-! ## Payloads that are not in the wire shape -/

theorem decodeStream_of_four (streamData : QVariant) (h : 4 ≤ streamData.toList.length) :
    decodeStream streamData = .ok (recordOfFirstFour streamData) := by
  unfold decodeStream recordOfFirstFour
  rcases hl : streamData.toList with _ | ⟨a0, _ | ⟨a1, _ | ⟨a2, _ | ⟨a3, rest⟩⟩⟩⟩
  · simp [hl] at h
  · simp [hl] at h
  · simp [hl] at h
  · simp [hl] at h
  · rfl

theorem decode_loop_of_four (l : List QVariant) (h : ∀ e ∈ l, 4 ≤ e.toList.length)
    (acc : StreamList) :
    l.foldlM decodeStep acc
      = (Except.ok (acc ++ l.map recordOfFirstFour) : Except Fault StreamList) := by
  induction l generalizing acc with
  | nil => simp [pure, Except.pure]
  | cons e l ih =>
    have he : 4 ≤ e.toList.length := h e (List.mem_cons_self e l)
    have hl : ∀ x ∈ l, 4 ≤ x.toList.length := fun x hx => h x (List.mem_cons_of_mem e hx)
    simp only [List.foldlM_cons, decodeStep, decodeStream_of_four e he]
    simp only [bind, Except.bind]
    rw [ih hl]
    simp

/-- An element with fewer than four entries: the loop calls `at(2)` on a two-element
list, outside the range `QList::at` requires. -/
theorem decode_short_element_faults :
    decodeStreams (.list [.list [.string "name", .string "url"]])
      = .error Fault.indexOutOfRange := rfl

/-- C4 as stated fails: a payload that is not a sequence is not rejected but decodes
as the empty update, which `unPackStream` then shows; and an element that is
not a 4-element sequence because it has a fifth entry is decoded from its first
four entries. In neither case is a decode error produced. -/
theorem C4_decode_counterexample :
    decodeStreams (.string "not a list") = .ok []
    ∧ (MainUi.new sampleConstants).unPackStream sampleConstants (.string "not a list")
        = .ok ((MainUi.new sampleConstants).showStreams sampleConstants [])
    ∧ decodeStreams
        (.list [.list [.string "A", .string "a", .bool true, .stringList ["best"],
                       .string "extra"]])
        = .ok [{ name := "A", url := "a", online := true, qualities := ["best"] }] :=
  ⟨rfl, rfl, rfl⟩

/-- C4, amended: the decode loop has no decode-error outcome. For every payload all
of whose elements convert (`toList`) to at least four entries, the decode
succeeds without any out-of-range access and yields one record per element, in
order, built from the first four entries of the element; a payload that is not
a sequence converts to the empty list and so decodes as the empty update. -/
theorem C4_decode_lenient (data : QVariant) (h : ∀ e ∈ data.toList, 4 ≤ e.toList.length) :
    decodeStreams data = .ok (data.toList.map recordOfFirstFour)
    ∧ (data.toList = [] → decodeStreams data = .ok []) := by
  have hd : decodeStreams data = .ok (data.toList.map recordOfFirstFour) := by
    unfold decodeStreams
    rw [decode_loop_of_four data.toList h]
    simp
  refine ⟨hd, ?_⟩
  intro he
  rw [hd, he]
  rfl

/-- A concrete instance of amended C4: a payload with a 4-entry and a 5-entry
element decodes into two records. -/
theorem C4_decode_lenient_witness :
    decodeStreams
        (.list [.list [.string "A", .string "a", .bool true, .stringList ["best"]],
                .list [.string "B", .string "b", .string "false", .invalid, .bool true]])
      = .ok [{ name := "A", url := "a", online := true, qualities := ["best"] },
             { name := "B", url := "b", online := false, qualities := [] }] :=
  (C4_decode_lenient
    (.list [.list [.string "A", .string "a", .bool true, .stringList ["best"]],
            .list [.string "B", .string "b", .string "false", .invalid, .bool true]])
    (by decide)).1

/-! ## Packet dispatch -/

/-- C6: for every packet type other than `StreamsUpdate` and every payload,
`MainUi::onPacketReceived` returns normally with the whole state unchanged
(cache, last-known states, rows, tray messages); a `StreamsUpdate` packet, and
only it, is handed to `unPackStream`. -/
theorem C6_other_packets_ignored (c : Constants) (ui : MainUi) (packetType : Nat)
    (content : QVariant) (h : packetType ≠ c.StreamsUpdate) :
    ui.onPacketReceived c packetType content = .ok ui
    ∧ ui.onPacketReceived c c.StreamsUpdate content = ui.unPackStream c content := by
  simp [MainUi.onPacketReceived, h]

/-- A concrete instance of C6: a packet of type 7 carrying a well-formed stream list
changes nothing. -/
theorem C6_other_packets_ignored_witness :
    (7 : Nat) ≠ sampleConstants.StreamsUpdate
    ∧ (MainUi.new sampleConstants).onPacketReceived sampleConstants 7
        (encodeStreams [{ name := "A", url := "a", online := true, qualities := [] }])
      = .ok (MainUi.new sampleConstants) :=
  ⟨by decide,
   (C6_other_packets_ignored sampleConstants (MainUi.new sampleConstants) 7
      (encodeStreams [{ name := "A", url := "a", online := true, qualities := [] }])
      (by decide)).1⟩

/-! ## Polling and playback on the shared command process -/

/-- C7 as stated fails: a probe that timed out and a probe that exited with code 0,
both with the standard output `No streams found` in which the parser finds no
live stream, leave `MainUi` in the very same state: no action widget, no error
shown. -/
theorem C7_failed_probe_counterexample :
    ProbeStatus.timedOut.failed = true
    ∧ (ProbeStatus.exited 0).failed = false
    ∧ (sampleConstants.parseQualitiesFromOutput "No streams found").2 = false
    ∧ (MainUi.new sampleConstants).on_ui_poll_clicked sampleConstants
          { status := .timedOut, stdout := "No streams found" }
        = (MainUi.new sampleConstants).on_ui_poll_clicked sampleConstants
          { status := .exited 0, stdout := "No streams found" }
    ∧ ((MainUi.new sampleConstants).on_ui_poll_clicked sampleConstants
          { status := .timedOut, stdout := "No streams found" }).clientSideStreamAction
        = none :=
  ⟨rfl, rfl, by decide, rfl, by decide⟩

/-- C7, amended: `on_ui_poll_clicked` never consults how the probe ended; its result
is determined by the standard output read after the wait. Two probes with the
same standard output leave the same state whatever their status, and whenever
the parser does not set `streamOnline` -- for a failed probe as for a
successful one -- the slot ends with no action widget and nothing else
changed after the restart. -/
theorem C7_poll_ignores_status (c : Constants) (ui : MainUi) (failed finished : ProbeOutcome)
    (hout : failed.stdout = finished.stdout) :
    ui.on_ui_poll_clicked c failed = ui.on_ui_poll_clicked c finished
    ∧ ((c.parseQualitiesFromOutput failed.stdout).2 = false →
        ui.on_ui_poll_clicked c failed = ui.pollStart c
        ∧ (ui.on_ui_poll_clicked c failed).clientSideStreamAction = none) := by
  refine ⟨?_, ?_⟩
  · simp [MainUi.on_ui_poll_clicked, hout]
  · intro hoff
    simp [MainUi.on_ui_poll_clicked, MainUi.pollFinish, hoff, MainUi.pollStart]

/-- A concrete instance of amended C7: a probe that could not be spawned and one
that exited normally, both with empty output, give the same state. -/
theorem C7_poll_ignores_status_witness :
    (MainUi.new sampleConstants).on_ui_poll_clicked sampleConstants
        { status := .spawnFailed, stdout := "" }
      = (MainUi.new sampleConstants).on_ui_poll_clicked sampleConstants
        { status := .exited 0, stdout := "" } :=
  (C7_poll_ignores_status sampleConstants (MainUi.new sampleConstants)
    { status := .spawnFailed, stdout := "" } { status := .exited 0, stdout := "" } rfl).1

/-- C8 as stated fails: a playback is started (child 1 of the command process), then
a probe is started; the probe restarts the same command process, so child 1 is
among the terminated children and the live child 2 has received the polling
command only. -/
theorem C8_shared_process_counterexample :
    ((MainUi.new sampleConstants).startStream sampleConstants "twitch.tv/a" "best").commandProcess
        = { live := 1, written := ["livestreamer twitch.tv/a best -p vlc"], terminated := [0] }
    ∧ (((MainUi.new sampleConstants).startStream sampleConstants "twitch.tv/a" "best").pollStart
          sampleConstants).commandProcess
        = { live := 2, written := ["livestreamer "], terminated := [0, 1] } := by
  decide

/-- C8, amended: probe and playback use the one `commandProcess` of `MainUi`, and
both `on_ui_poll_clicked` and `startStream` restart it before writing their
command. So starting a probe terminates the child in which a playback was
started, starting a playback terminates the child of a probe in flight, and
the live child only ever holds the command written last. -/
theorem C8_shared_process (c : Constants) (ui : MainUi) (url quality : String)
    (outcome : ProbeOutcome) :
    (((ui.startStream c url quality).pollStart c).commandProcess.live
        ≠ (ui.startStream c url quality).commandProcess.live
      ∧ (ui.startStream c url quality).commandProcess.live
        ∈ ((ui.startStream c url quality).pollStart c).commandProcess.terminated
      ∧ ((ui.startStream c url quality).pollStart c).commandProcess.written
        = [c.POLLING_COMMAND ui.ui_urlEdit])
    ∧ ((ui.startStream c url quality).on_ui_poll_clicked c outcome).commandProcess
        = ((ui.startStream c url quality).pollStart c).commandProcess
    ∧ (((ui.pollStart c).startStream c url quality).commandProcess.live
        ≠ (ui.pollStart c).commandProcess.live
      ∧ (ui.pollStart c).commandProcess.live
        ∈ ((ui.pollStart c).startStream c url quality).commandProcess.terminated
      ∧ ((ui.pollStart c).startStream c url quality).commandProcess.written
        = [c.START_LIVESTREAMER_COMMAND url quality ui.mediaPlayerPath]) := by
  refine ⟨⟨?_, ?_, ?_⟩, ?_, ⟨?_, ?_, ?_⟩⟩
  · simp [MainUi.startStream, MainUi.pollStart, CommandProcess.restart, CommandProcess.write]
  · simp [MainUi.startStream, MainUi.pollStart, CommandProcess.restart, CommandProcess.write]
  · simp [MainUi.startStream, MainUi.pollStart, CommandProcess.restart, CommandProcess.write]
  · unfold MainUi.on_ui_poll_clicked MainUi.pollFinish
    by_cases h : (c.parseQualitiesFromOutput outcome.stdout).2 = true
    · simp [h, MainUi.buildClientActionWidget]
    · simp [h]
  · simp [MainUi.startStream, MainUi.pollStart, CommandProcess.restart, CommandProcess.write]
  · simp [MainUi.startStream, MainUi.pollStart, CommandProcess.restart, CommandProcess.write]
  · simp [MainUi.startStream, MainUi.pollStart, CommandProcess.restart, CommandProcess.write]

end GlobiStream
